import Mathlib

/-!
Shallow embedding of the catalog backend in `src/main.py` (a FastAPI app).

Modelling conventions:
* Python `str` is Lean `String`; `str.lower()` is `pyLower`.
* Python `float` prices are embedded as `Rat`; every price literal in the
  repository is exactly representable and float comparison coincides with
  the ordering of the represented rationals, so sorting behaviour is
  preserved.
* Python's truthiness test `if s:` on an `Optional[str]` is `none` and the
  empty string falsy, everything else truthy.
* Python's stable `sorted(items, key=...)` (and `reverse=True`) is
  `List.mergeSort`, which is a stable sort, with the corresponding
  (respectively flipped) boolean comparison on the key.
* `sub in s` (substring test) is `strIn sub s` below.
* An HTTP 404 from `get_product` is the `none` branch of an `Option`.
-/

namespace Luxe

open scoped List

/-- The `Product` pydantic model of `src/main.py` (lines 21-32). -/
structure Product where
  id : String
  name : String
  price : Rat
  gender : String
  category : String
  sizes : List String
  images : List String
  description : Option String
  tags : List String
  featured : Bool
  new_arrival : Bool
deriving DecidableEq

/-- Python's `sub in s` on lists of characters: `sub` occurs contiguously. -/
def listContains (sub : List Char) : List Char → Bool
  | [] => sub.isEmpty
  | c :: cs => sub.isPrefixOf (c :: cs) || listContains sub cs

/-- Python's substring test `sub in s` for strings. -/
def strIn (sub s : String) : Bool := listContains sub.data s.data

/-- Python's `str.lower()`: lowercase each character (the repository's data
and query values are ASCII, where Python and `Char.toLower` agree). -/
def pyLower (s : String) : String := ⟨s.data.map Char.toLower⟩

/-- Python's truthiness of an `Optional[str]`: `None` and `""` are falsy. -/
def truthy : Option String → Bool
  | none => false
  | some s => !(s == "")

/-- First sample product (`st-laurent-coat`, main.py lines 59-73). -/
def stLaurentCoat : Product :=
  ⟨"st-laurent-coat", "Wool Cashmere Overcoat", 2490, "men", "outerwear",
   ["S", "M", "L", "XL"],
   ["https://images.unsplash.com/photo-1516826957135-700dedea698c?q=80&w=1400&auto=format&fit=crop",
    "https://images.unsplash.com/photo-1490481651871-ab68de25d43d?q=80&w=1400&auto=format&fit=crop"],
   some "Tailored Italian wool-cashmere blend with silk lining.",
   ["coat", "cashmere", "luxury"], true, false⟩

/-- Second sample product (`dior-heel-01`, main.py lines 74-89). -/
def diorHeel01 : Product :=
  ⟨"dior-heel-01", "Patent Leather Stiletto", 980, "women", "shoes",
   ["35", "36", "37", "38", "39", "40"],
   ["https://images.unsplash.com/photo-1520975922215-c0495a1fd8ec?q=80&w=1400&auto=format&fit=crop",
    "https://images.unsplash.com/photo-1561808843-7c3b1b4e6b8c?q=80&w=1400&auto=format&fit=crop"],
   some "Glossy patent leather with gold accent heel.",
   ["heels", "gold"], true, true⟩

/-- Third sample product (`gucci-bag-velvet`, main.py lines 90-104). -/
def gucciBagVelvet : Product :=
  ⟨"gucci-bag-velvet", "Velvet Chain Shoulder Bag", 3150, "women", "bags",
   [],
   ["https://images.unsplash.com/photo-1548036328-c9fa89d128fa?q=80&w=1400&auto=format&fit=crop",
    "https://images.unsplash.com/photo-1547949003-9792a18a2601?q=80&w=1400&auto=format&fit=crop"],
   some "Signature velvet with brushed gold chain.",
   ["bag", "chain", "velvet"], false, true⟩

/-- Fourth sample product (`balenciaga-tee`, main.py lines 105-117). -/
def balenciagaTee : Product :=
  ⟨"balenciaga-tee", "Logo Cotton T-Shirt", 450, "unisex", "tops",
   ["XS", "S", "M", "L", "XL"],
   ["https://images.unsplash.com/photo-1544441893-675973e31985?q=80&w=1400&auto=format&fit=crop"],
   some "Premium heavyweight cotton with subtle logo print.",
   ["t-shirt", "cotton"], false, false⟩

/-- Fifth sample product (`ysl-boots-chelsea`, main.py lines 118-131). -/
def yslBootsChelsea : Product :=
  ⟨"ysl-boots-chelsea", "Leather Chelsea Boots", 1290, "men", "shoes",
   ["40", "41", "42", "43", "44"],
   ["https://images.unsplash.com/photo-1519741497674-611481863552?q=80&w=1400&auto=format&fit=crop"],
   some "Polished calfskin with elastic side panels.",
   ["boots", "leather"], true, false⟩

/-- `SAMPLE_PRODUCTS` (main.py lines 58-132): the built-in fallback dataset. -/
def SAMPLE_PRODUCTS : List Product :=
  [stLaurentCoat, diorHeel01, gucciBagVelvet, balenciagaTee, yslBootsChelsea]

/-- Outcome of the try-block of `fetch_products_from_db_or_sample`
(main.py lines 136-149). The `database` module is not part of `src/`, so its
read is abstracted into three cases: `unavailable` (the import fails or `db`
is `None`), `readError` (any exception while reading `get_documents` or while
mapping a raw record into `Product`), and `ok records` (the successfully
mapped records). -/
inductive DbResult where
  | unavailable : DbResult
  | readError : DbResult
  | ok : List Product → DbResult
deriving DecidableEq

/-- `fetch_products_from_db_or_sample` (main.py lines 136-149): any failure is
swallowed and the sample dataset returned; a successful but empty read also
falls back to the sample dataset. -/
def fetch_products_from_db_or_sample : DbResult → List Product
  | .unavailable => SAMPLE_PRODUCTS
  | .readError => SAMPLE_PRODUCTS
  | .ok products => if products.isEmpty then SAMPLE_PRODUCTS else products

/-- The gender predicate of main.py line 168:
`p.gender.lower() == gender.lower() or (gender == "unisex" and p.gender == "unisex")`. -/
def genderMatch (gender : String) (p : Product) : Bool :=
  pyLower p.gender == pyLower gender || (gender == "unisex" && p.gender == "unisex")

/-- The category predicate of main.py line 170:
`p.category.lower() == category.lower()`. -/
def categoryMatch (category : String) (p : Product) : Bool :=
  pyLower p.category == pyLower category

/-- The search predicate of main.py line 173, with `ql` the lowered query:
`ql in p.name.lower() or any(ql in t.lower() for t in p.tags)`. -/
def searchMatch (ql : String) (p : Product) : Bool :=
  strIn ql (pyLower p.name) || p.tags.any (fun t => strIn ql (pyLower t))

/-- The gender pass of `list_products` (main.py lines 167-168). -/
def applyGender (gender : Option String) (items : List Product) : List Product :=
  if truthy gender then items.filter (genderMatch (gender.getD "")) else items

/-- The category pass of `list_products` (main.py lines 169-170). -/
def applyCategory (category : Option String) (items : List Product) : List Product :=
  if truthy category then items.filter (categoryMatch (category.getD "")) else items

/-- The free-text search pass of `list_products` (main.py lines 171-173). -/
def applySearch (q : Option String) (items : List Product) : List Product :=
  if truthy q then items.filter (searchMatch (pyLower (q.getD ""))) else items

/-- Comparison used by `sorted(items, key=lambda p: p.price)`. -/
def priceLe (a b : Product) : Bool := decide (a.price ≤ b.price)

/-- Comparison used by `sorted(items, key=lambda p: p.price, reverse=True)`:
Python's stable reverse sort orders by strictly greater key, ties in original
order, which is exactly a stable sort with the flipped comparison. -/
def priceGe (a b : Product) : Bool := decide (b.price ≤ a.price)

/-- The two sort statements of `list_products` (main.py lines 174-177). -/
def applySort (sort : Option String) (items : List Product) : List Product :=
  let items1 := if sort == some "price_asc" then items.mergeSort priceLe else items
  if sort == some "price_desc" then items1.mergeSort priceGe else items1

/-- `list_products` (main.py lines 158-178) applied to an already fetched
product list: gender, category and free-text passes in order, then sort. -/
def list_products (items : List Product)
    (gender category q sort : Option String) : List Product :=
  applySort sort (applySearch q (applyCategory category (applyGender gender items)))

/-- `get_product` (main.py lines 180-186): linear scan for the first product
with the requested id; `none` models the HTTP 404 branch. -/
def get_product (items : List Product) («product_id» : String) : Option Product :=
  items.find? (fun p => p.id == «product_id»)

/-- The plain case-insensitive gender equality predicate, written from the
spec's words for the refinement claim: keep `p` iff `p.gender` equals the
requested gender case-insensitively, with no extra `unisex` disjunct. -/
def genderEqPlain (gender : String) (p : Product) : Bool :=
  pyLower p.gender == pyLower gender

/-- The `CartItem` pydantic model of `src/main.py` (lines 42-48). -/
structure CartItem where
  id : String
  name : String
  price : Rat
  size : Option String
  quantity : Int
  image : Option String
deriving DecidableEq

/-- Round a rational to the nearest integer, ties to the even integer: the
rounding used by Python's built-in `round`. -/
def roundHalfEven (x : Rat) : Int :=
  if x - ⌊x⌋ < 1/2 then ⌊x⌋
  else if x - ⌊x⌋ > 1/2 then ⌊x⌋ + 1
  else if ⌊x⌋ % 2 = 0 then ⌊x⌋ else ⌊x⌋ + 1

/-- Python's `round(x, 2)` over the exact rational value: round to the
nearest multiple of 1/100, ties to the even cent. (The code computes this
over binary64 floats; at the concrete checkout scenario of the spec the
float computation returns the same value, 250.0.) -/
def pyRound2 (x : Rat) : Rat := (roundHalfEven (x * 100) : Rat) / 100

/-- The total computed by `checkout` (main.py lines 206-209):
`round(sum(it.price * it.quantity for it in payload.items), 2)`. -/
def checkout_total (items : List CartItem) : Rat :=
  pyRound2 ((items.map (fun it => it.price * (it.quantity : Rat))).sum)

/-! ### Helper lemmas about the passes of the query pipeline -/

theorem abs_roundHalfEven_sub (x : Rat) : |(roundHalfEven x : Rat) - x| ≤ 1/2 := by
  have h0 : (⌊x⌋ : Rat) ≤ x := Int.floor_le x
  have h1 : x < ⌊x⌋ + 1 := Int.lt_floor_add_one x
  unfold roundHalfEven
  rw [abs_le]
  split_ifs with hlt hgt heven
  · constructor <;> linarith
  · push_cast
    constructor <;> linarith
  · have h2 := not_lt.mp hlt
    have h3 := not_lt.mp hgt
    constructor <;> linarith
  · have h2 := not_lt.mp hlt
    have h3 := not_lt.mp hgt
    push_cast
    constructor <;> linarith

theorem pyRound2_close (x : Rat) : |pyRound2 x - x| ≤ 1/200 := by
  have h := abs_roundHalfEven_sub (x * 100)
  rw [abs_le] at h ⊢
  unfold pyRound2
  constructor <;> linarith [h.1, h.2]

theorem applyGender_sublist (g : Option String) (l : List Product) :
    applyGender g l <+ l := by
  unfold applyGender
  split
  · exact List.filter_sublist l
  · exact List.Sublist.refl l

theorem applyCategory_sublist (c : Option String) (l : List Product) :
    applyCategory c l <+ l := by
  unfold applyCategory
  split
  · exact List.filter_sublist l
  · exact List.Sublist.refl l

theorem applySearch_sublist (q : Option String) (l : List Product) :
    applySearch q l <+ l := by
  unfold applySearch
  split
  · exact List.filter_sublist l
  · exact List.Sublist.refl l

theorem pipeline_sublist (g c q : Option String) (items : List Product) :
    applySearch q (applyCategory c (applyGender g items)) <+ items :=
  ((applySearch_sublist q _).trans (applyCategory_sublist c _)).trans
    (applyGender_sublist g items)

theorem applySort_asc (l : List Product) :
    applySort (some "price_asc") l = l.mergeSort priceLe := rfl

theorem applySort_desc (l : List Product) :
    applySort (some "price_desc") l = l.mergeSort priceGe := rfl

theorem applySort_other {s : Option String} (h1 : s ≠ some "price_asc")
    (h2 : s ≠ some "price_desc") (l : List Product) : applySort s l = l := by
  have hb1 : (s == some "price_asc") = false := by simpa using h1
  have hb2 : (s == some "price_desc") = false := by simpa using h2
  simp [applySort, hb1, hb2]

theorem applySort_perm (s : Option String) (l : List Product) : applySort s l ~ l := by
  unfold applySort
  cases h1 : (s == some "price_asc") <;> cases h2 : (s == some "price_desc") <;>
    simp only [h1, h2, if_true, if_false, Bool.false_eq_true, Bool.true_eq_false, ite_true,
      ite_false, cond_true, cond_false]
  · exact List.Perm.refl l
  · exact List.mergeSort_perm l priceGe
  · exact List.mergeSort_perm l priceLe
  · exact (List.mergeSort_perm _ priceGe).trans (List.mergeSort_perm l priceLe)

theorem priceLe_trans : ∀ a b c : Product, priceLe a b → priceLe b c → priceLe a c := by
  intro a b c hab hbc
  simp only [priceLe, decide_eq_true_eq] at *
  exact le_trans hab hbc

theorem priceLe_total : ∀ a b : Product, priceLe a b || priceLe b a := by
  intro a b
  simp only [priceLe, Bool.or_eq_true, decide_eq_true_eq]
  exact le_total _ _

theorem priceGe_trans : ∀ a b c : Product, priceGe a b → priceGe b c → priceGe a c := by
  intro a b c hab hbc
  simp only [priceGe, decide_eq_true_eq] at *
  exact le_trans hbc hab

theorem priceGe_total : ∀ a b : Product, priceGe a b || priceGe b a := by
  intro a b
  simp only [priceGe, Bool.or_eq_true, decide_eq_true_eq]
  exact le_total _ _

/-- Stability of a stable sort, in filter form: the subsequence of products
with any fixed price is untouched by sorting, for any comparison that is
transitive, total and holds between equal-priced products. -/
theorem mergeSort_filter_price (le : Product → Product → Bool)
    (htrans : ∀ a b c : Product, le a b → le b c → le a c)
    (htotal : ∀ a b : Product, le a b || le b a)
    (hkey : ∀ a b : Product, a.price = b.price → le a b = true)
    (l : List Product) (v : Rat) :
    (l.mergeSort le).filter (fun p => p.price == v) = l.filter (fun p => p.price == v) := by
  have hpair : (l.filter (fun p => p.price == v)).Pairwise (fun a b => le a b = true) := by
    apply List.pairwise_of_forall_mem_list
    intro a ha b hb
    have ha2 : a.price = v := by simpa using (List.mem_filter.mp ha).2
    have hb2 : b.price = v := by simpa using (List.mem_filter.mp hb).2
    exact hkey a b (ha2.trans hb2.symm)
  have hsub : l.filter (fun p => p.price == v) <+ l.mergeSort le :=
    List.sublist_mergeSort htrans htotal hpair (List.filter_sublist l)
  have hself : (l.filter (fun p => p.price == v)).filter (fun p => p.price == v)
      = l.filter (fun p => p.price == v) :=
    List.filter_eq_self.mpr (fun a ha => (List.mem_filter.mp ha).2)
  have hsub2 : l.filter (fun p => p.price == v) <+ (l.mergeSort le).filter (fun p => p.price == v) := by
    have h := hsub.filter (fun p => p.price == v)
    rwa [hself] at h
  have hlen : ((l.mergeSort le).filter (fun p => p.price == v)).length
      = (l.filter (fun p => p.price == v)).length :=
    ((List.mergeSort_perm l le).filter _).length_eq
  exact (hsub2.eq_of_length hlen.symm).symm

theorem applyGender_eq_filter (g : Option String) (l : List Product) :
    applyGender g l = l.filter (fun p => !truthy g || genderMatch (g.getD "") p) := by
  unfold applyGender
  cases h : truthy g <;> simp [h]

theorem applyCategory_eq_filter (c : Option String) (l : List Product) :
    applyCategory c l = l.filter (fun p => !truthy c || categoryMatch (c.getD "") p) := by
  unfold applyCategory
  cases h : truthy c <;> simp [h]

theorem applySearch_eq_filter (q : Option String) (l : List Product) :
    applySearch q l = l.filter (fun p => !truthy q || searchMatch (pyLower (q.getD "")) p) := by
  unfold applySearch
  cases h : truthy q <;> simp [h]

/-! ### The claims -/

/-- C1: for every input product list and every combination of the optional
query parameters, every product in the result of the catalog query is an
element of the input list, and no product occurs in the result more times
than it occurs in the input (nothing is synthesized or duplicated). -/
theorem catalog_result_subcount_of_input :
    ∀ (items : List Product) (g c q s : Option String) (p : Product),
      (list_products items g c q s).count p ≤ items.count p
      ∧ (p ∈ list_products items g c q s → p ∈ items) := by
  intro items g c q s p
  have hsub : applySearch q (applyCategory c (applyGender g items)) <+ items :=
    pipeline_sublist g c q items
  have hperm : list_products items g c q s ~ applySearch q (applyCategory c (applyGender g items)) :=
    applySort_perm s _
  constructor
  · calc (list_products items g c q s).count p
        = (applySearch q (applyCategory c (applyGender g items))).count p := hperm.count_eq p
      _ ≤ items.count p := hsub.count_le p
  · intro hp
    exact hsub.subset (hperm.mem_iff.mp hp)

theorem catalog_result_subcount_of_input_witness : stLaurentCoat ∈ SAMPLE_PRODUCTS :=
  (catalog_result_subcount_of_input SAMPLE_PRODUCTS none none none none stLaurentCoat).2
    (by decide)

/-- C2: the gender filter as implemented (case-insensitive equality OR the
extra disjunct for a literal `unisex` request) is extensionally equal to a
plain case-insensitive equality filter on the product's gender field; in
particular, requesting `men` never returns a product whose gender is
`unisex`. -/
theorem gender_filter_plain_equality :
    (∀ (items : List Product) (g : String),
      items.filter (genderMatch g) = items.filter (genderEqPlain g))
    ∧ (∀ (items : List Product) (c q s : Option String) (p : Product),
      p ∈ list_products items (some "men") c q s → p.gender ≠ "unisex") := by
  constructor
  · intro items g
    apply List.filter_congr
    intro p _
    unfold genderMatch genderEqPlain
    cases h : (g == "unisex" && p.gender == "unisex")
    · simp
    · simp only [Bool.and_eq_true, beq_iff_eq] at h
      rw [h.1, h.2]
      decide
  · intro items c q s p hmem hgu
    have h2 : p ∈ applySearch q (applyCategory c (applyGender (some "men") items)) :=
      (applySort_perm s _).mem_iff.mp hmem
    have h1 : p ∈ applyGender (some "men") items :=
      (applyCategory_sublist c _).subset ((applySearch_sublist q _).subset h2)
    have h3 : genderMatch "men" p = true := by
      have h4 : p ∈ items.filter (genderMatch "men") := h1
      exact (List.mem_filter.mp h4).2
    unfold genderMatch at h3
    rw [hgu] at h3
    exact absurd h3 (by decide)

theorem gender_filter_plain_equality_witness : stLaurentCoat.gender ≠ "unisex" :=
  gender_filter_plain_equality.2 SAMPLE_PRODUCTS none none none stLaurentCoat (by decide)

/-- C6: single-item lookup returns the first product in the list whose id is
exactly (case-sensitively) equal to the requested id, signals NotFound (the
`none` branch, surfaced as a 404) iff no product has that id, and for an id
present exactly once returns that product unchanged. -/
theorem get_product_first_match_spec :
    ∀ (items : List Product) (pid : String),
      (get_product items pid = none ↔ ∀ p ∈ items, p.id ≠ pid)
      ∧ (∀ p : Product, get_product items pid = some p ↔
          p.id = pid ∧ ∃ l₁ l₂, items = l₁ ++ p :: l₂ ∧ ∀ a ∈ l₁, a.id ≠ pid)
      ∧ (∀ p : Product, p ∈ items → p.id = pid →
          (∀ a ∈ items, a.id = pid → a = p) → get_product items pid = some p) := by
  intro items pid
  refine ⟨?_, ?_, ?_⟩
  · unfold get_product
    rw [List.find?_eq_none]
    simp
  · intro p
    unfold get_product
    rw [List.find?_eq_some]
    simp
  · intro p hmem hid huniq
    cases hfind : get_product items pid with
    | none =>
      exfalso
      unfold get_product at hfind
      rw [List.find?_eq_none] at hfind
      exact hfind p hmem (by simp [hid])
    | some a =>
      unfold get_product at hfind
      have h := List.find?_some hfind
      have hmema := List.mem_of_find?_eq_some hfind
      have hap : a = p := huniq a hmema (by simpa using h)
      subst hap
      rfl

theorem get_product_first_match_spec_witness :
    get_product SAMPLE_PRODUCTS "unknown-id" = none :=
  (get_product_first_match_spec SAMPLE_PRODUCTS "unknown-id").1.mpr (by decide)

/-- C8: the data source resolver returns the built-in sample dataset when the
external store is unavailable or not configured, when any error occurs during
the read or the record mapping, or when zero records come back; no error is
surfaced (the function is total and always returns a list); otherwise it
returns the records read from the external store. -/
theorem fetch_fallback_spec :
    fetch_products_from_db_or_sample .unavailable = SAMPLE_PRODUCTS
    ∧ fetch_products_from_db_or_sample .readError = SAMPLE_PRODUCTS
    ∧ fetch_products_from_db_or_sample (.ok []) = SAMPLE_PRODUCTS
    ∧ ∀ ps : List Product, ps ≠ [] →
        fetch_products_from_db_or_sample (.ok ps) = ps := by
  refine ⟨rfl, rfl, rfl, ?_⟩
  intro ps h
  cases ps with
  | nil => exact absurd rfl h
  | cons a l => rfl

theorem fetch_fallback_spec_witness :
    fetch_products_from_db_or_sample (.ok SAMPLE_PRODUCTS) = SAMPLE_PRODUCTS :=
  fetch_fallback_spec.2.2.2 SAMPLE_PRODUCTS (by decide)

/-- C10: passing an empty string for any of the gender, category, q or sort
query parameters is treated exactly like omitting that parameter: the full
candidate set passes through that stage unchanged. -/
theorem empty_param_like_absent :
    ∀ (items : List Product) (g c q s : Option String),
      list_products items (some "") c q s = list_products items none c q s
      ∧ list_products items g (some "") q s = list_products items g none q s
      ∧ list_products items g c (some "") s = list_products items g c none s
      ∧ list_products items g c q (some "") = list_products items g c q none := by
  intro items g c q s
  exact ⟨rfl, rfl, rfl, rfl⟩

/-- C3: on the pipeline, the sort stage applies to the pre-sort (filtered)
sequence; sort=price_asc returns the list sorted ascending by price,
sort=price_desc sorted descending by price, any other sort value (including
absent) returns the pre-sort order, and both sorts are stable: the
subsequence of products at any fixed price is exactly the one of the
pre-sort sequence. -/
theorem sort_modes_spec :
    (∀ (items : List Product) (g c q s : Option String),
      list_products items g c q s = applySort s (list_products items g c q none))
    ∧ ∀ l : List Product,
      ((applySort (some "price_asc") l).Pairwise (fun a b => a.price ≤ b.price)
        ∧ applySort (some "price_asc") l ~ l
        ∧ ∀ v : Rat, (applySort (some "price_asc") l).filter (fun p => p.price == v)
            = l.filter (fun p => p.price == v))
      ∧ ((applySort (some "price_desc") l).Pairwise (fun a b => b.price ≤ a.price)
        ∧ applySort (some "price_desc") l ~ l
        ∧ ∀ v : Rat, (applySort (some "price_desc") l).filter (fun p => p.price == v)
            = l.filter (fun p => p.price == v))
      ∧ ∀ s : Option String, s ≠ some "price_asc" → s ≠ some "price_desc" →
          applySort s l = l := by
  constructor
  · intro items g c q s
    rfl
  · intro l
    refine ⟨⟨?_, ?_, ?_⟩, ⟨?_, ?_, ?_⟩, ?_⟩
    · rw [applySort_asc]
      exact (List.sorted_mergeSort priceLe_trans priceLe_total l).imp
        (fun h => by simpa [priceLe] using h)
    · rw [applySort_asc]
      exact List.mergeSort_perm l priceLe
    · intro v
      rw [applySort_asc]
      exact mergeSort_filter_price priceLe priceLe_trans priceLe_total
        (fun a b h => by simp [priceLe, h]) l v
    · rw [applySort_desc]
      exact (List.sorted_mergeSort priceGe_trans priceGe_total l).imp
        (fun h => by simpa [priceGe] using h)
    · rw [applySort_desc]
      exact List.mergeSort_perm l priceGe
    · intro v
      rw [applySort_desc]
      exact mergeSort_filter_price priceGe priceGe_trans priceGe_total
        (fun a b h => by simp [priceGe, h]) l v
    · intro s h1 h2
      exact applySort_other h1 h2 l

theorem sort_modes_spec_witness :
    applySort (some "name") SAMPLE_PRODUCTS = SAMPLE_PRODUCTS :=
  (sort_modes_spec.2 SAMPLE_PRODUCTS).2.2 (some "name") (by decide) (by decide)

/-- C5: for every filtered product list (any parameter combination), the
sequence of price values produced by sort=price_desc is the exact reverse of
the sequence of price values produced by sort=price_asc on the same list. -/
theorem price_desc_reverse_of_asc :
    ∀ (items : List Product) (g c q : Option String),
      (list_products items g c q (some "price_desc")).map Product.price
        = ((list_products items g c q (some "price_asc")).map Product.price).reverse := by
  intro items g c q
  have hdesc : list_products items g c q (some "price_desc")
      = (applySearch q (applyCategory c (applyGender g items))).mergeSort priceGe := rfl
  have hasc : list_products items g c q (some "price_asc")
      = (applySearch q (applyCategory c (applyGender g items))).mergeSort priceLe := rfl
  rw [hdesc, hasc]
  set l := applySearch q (applyCategory c (applyGender g items)) with hl
  have hsort1 : ((l.mergeSort priceGe).map Product.price).Pairwise
      (fun x y : Rat => y ≤ x) := by
    rw [List.pairwise_map]
    exact (List.sorted_mergeSort priceGe_trans priceGe_total l).imp
      (fun h => by simpa [priceGe] using h)
  have hsort2 : (((l.mergeSort priceLe).map Product.price).reverse).Pairwise
      (fun x y : Rat => y ≤ x) := by
    rw [List.pairwise_reverse, List.pairwise_map]
    exact (List.sorted_mergeSort priceLe_trans priceLe_total l).imp
      (fun h => by simpa [priceLe] using h)
  have hperm : (l.mergeSort priceGe).map Product.price
      ~ ((l.mergeSort priceLe).map Product.price).reverse := by
    refine ((List.mergeSort_perm l priceGe).map _).trans ?_
    exact (((List.mergeSort_perm l priceLe).map _).symm).trans (List.reverse_perm _).symm
  haveI : IsAntisymm Rat (fun x y : Rat => y ≤ x) := ⟨fun a b h1 h2 => le_antisymm h2 h1⟩
  exact List.eq_of_perm_of_sorted hperm hsort1 hsort2

/-- C7: for every product list and non-empty search text q, the free-text
filter keeps exactly those products where the lowercased q is a substring of
the lowercased name, or a substring of the lowercasing of at least one tag;
on the sample dataset, q=gold returns only dior-heel-01. -/
theorem search_filter_spec :
    (∀ (items : List Product) (q : String), q ≠ "" → ∀ p : Product,
      (p ∈ applySearch (some q) items ↔
        p ∈ items ∧ (strIn (pyLower q) (pyLower p.name) = true
          ∨ ∃ t ∈ p.tags, strIn (pyLower q) (pyLower t) = true)))
    ∧ (list_products SAMPLE_PRODUCTS none none (some "gold") none).map Product.id
        = ["dior-heel-01"] := by
  constructor
  · intro items q hq p
    have ht : truthy (some q) = true := by simp [truthy, hq]
    simp [applySearch, ht, searchMatch, List.mem_filter, List.any_eq_true]
  · decide

theorem search_filter_spec_witness :
    diorHeel01 ∈ applySearch (some "gold") SAMPLE_PRODUCTS :=
  (search_filter_spec.1 SAMPLE_PRODUCTS "gold" (by decide) diorHeel01).mpr (by decide)

/-- C4: the set of products produced by the sequential
gender-then-category-then-search pipeline is independent of the order of the
three filter passes (all six orders give the same list), and membership in
the pipeline result is exactly the intersection of the three individual
filters. -/
theorem filter_order_independence :
    ∀ (items : List Product) (g c q : Option String),
      (applySearch q (applyCategory c (applyGender g items))
          = applySearch q (applyGender g (applyCategory c items))
        ∧ applySearch q (applyCategory c (applyGender g items))
          = applyCategory c (applyGender g (applySearch q items))
        ∧ applySearch q (applyCategory c (applyGender g items))
          = applyCategory c (applySearch q (applyGender g items))
        ∧ applySearch q (applyCategory c (applyGender g items))
          = applyGender g (applySearch q (applyCategory c items))
        ∧ applySearch q (applyCategory c (applyGender g items))
          = applyGender g (applyCategory c (applySearch q items)))
      ∧ ∀ p : Product,
        p ∈ applySearch q (applyCategory c (applyGender g items))
          ↔ p ∈ applyGender g items ∧ p ∈ applyCategory c items ∧ p ∈ applySearch q items := by
  intro items g c q
  constructor
  · refine ⟨?_, ?_, ?_, ?_, ?_⟩ <;>
    · simp only [applyGender_eq_filter, applyCategory_eq_filter, applySearch_eq_filter,
        List.filter_filter]
      exact List.filter_congr (fun a _ => by
        cases h1 : (!truthy g || genderMatch (g.getD "") a) <;>
        cases h2 : (!truthy c || categoryMatch (c.getD "") a) <;>
        cases h3 : (!truthy q || searchMatch (pyLower (q.getD "")) a) <;>
        simp [h1, h2, h3])
  · intro p
    simp only [applyGender_eq_filter, applyCategory_eq_filter, applySearch_eq_filter,
      List.filter_filter, List.mem_filter, Bool.and_eq_true, Bool.or_eq_true,
      Bool.not_eq_true']
    tauto

theorem checkout_concrete_value :
    checkout_total [⟨"a", "A", 100, none, 2, none⟩, ⟨"b", "B", 49.995, none, 1, none⟩]
      = 250 := by
  have hxsum : (List.map (fun it : CartItem => it.price * (it.quantity : Rat))
      [⟨"a", "A", 100, none, 2, none⟩, ⟨"b", "B", 49.995, none, 1, none⟩]).sum
      = 49999/200 := by
    norm_num [List.map]
  unfold checkout_total pyRound2
  rw [hxsum]
  have h100 : (49999/200 : Rat) * 100 = 49999/2 := by norm_num
  rw [h100]
  have hfl : ⌊(49999/2 : Rat)⌋ = 24999 := by
    rw [Int.floor_eq_iff]
    constructor <;> norm_num
  unfold roundHalfEven
  rw [hfl]
  split_ifs with h1 h2 h3
  · exfalso
    push_cast at h1
    norm_num at h1
  · exfalso
    push_cast at h2
    norm_num at h2
  · exfalso
    norm_num at h3
  · push_cast
    norm_num

/-- C9 counterexample: at the spec's concrete input
`[{price:100, quantity:2},{price:49.995, quantity:1}]` the checkout total is
not 249.99 (it is 250, both in this exact model and in the code's binary64
computation, where `200.0 + 49.995` rounds up past the midpoint 249.995). -/
theorem checkout_claim_counterexample :
    checkout_total [⟨"a", "A", 100, none, 2, none⟩, ⟨"b", "B", 49.995, none, 1, none⟩]
      ≠ 249.99 := by
  rw [checkout_concrete_value]
  norm_num

/-- C9 (amended): for every checkout request, the returned total is the sum
over all items of price times quantity rounded to 2 decimal places — a
multiple of 1/100 within half a cent of the exact sum; in particular for
items `[{price:100, quantity:2},{price:49.995, quantity:1}]` the total is
250.00 (not 249.99). -/
theorem checkout_total_amended :
    (∀ items : List CartItem,
      checkout_total items
          = pyRound2 ((items.map (fun it => it.price * (it.quantity : Rat))).sum)
        ∧ (∃ n : Int, checkout_total items = (n : Rat) / 100)
        ∧ |checkout_total items
            - (items.map (fun it => it.price * (it.quantity : Rat))).sum| ≤ 1/200)
    ∧ checkout_total [⟨"a", "A", 100, none, 2, none⟩, ⟨"b", "B", 49.995, none, 1, none⟩]
        = 250 := by
  constructor
  · intro items
    refine ⟨rfl, ⟨roundHalfEven (((items.map (fun it => it.price * (it.quantity : Rat))).sum) * 100), rfl⟩, pyRound2_close _⟩
  · exact checkout_concrete_value

end Luxe
